import Mathlib

/-!
Verification of the numeric-sequence generation and visualization pipeline of
the fastapi-react-demo repository.

The client-side renderer (`SimplePlot.tsx`) and the composing form
(`DemoForm.tsx`) are embedded below.  JavaScript numbers are modelled by the
type `JsNum`: an exact rational payload together with the IEEE special values
`NaN`, `+Infinity` and `-Infinity`.  Arithmetic on `JsNum` follows the
JavaScript (IEEE 754) rules for special values exactly; finite arithmetic is
exact rational arithmetic (no rounding, no signed zero), which is the
reading used throughout: the specification states its scale identities
"within floating tolerance", and in exact arithmetic they are exact.
-/

/-- A JavaScript number: a finite (exact rational) value, NaN, or a signed
infinity. -/
inductive JsNum where
  | fin (q : ℚ)
  | nan
  | posInf
  | negInf
deriving DecidableEq, Repr

namespace JsNum

/-- JavaScript unary negation. -/
def neg : JsNum → JsNum
  | fin q => fin (-q)
  | nan => nan
  | posInf => negInf
  | negInf => posInf

/-- JavaScript addition (IEEE special-value rules; finite case exact). -/
def add : JsNum → JsNum → JsNum
  | nan, _ => nan
  | _, nan => nan
  | posInf, negInf => nan
  | negInf, posInf => nan
  | posInf, _ => posInf
  | _, posInf => posInf
  | negInf, _ => negInf
  | _, negInf => negInf
  | fin a, fin b => fin (a + b)

/-- JavaScript subtraction: `a - b` behaves as `a + (-b)`. -/
def sub (a b : JsNum) : JsNum := add a (neg b)

/-- JavaScript multiplication (IEEE special-value rules; `0 * ∞ = NaN`). -/
def mul : JsNum → JsNum → JsNum
  | nan, _ => nan
  | _, nan => nan
  | fin a, fin b => fin (a * b)
  | fin a, posInf => if a = 0 then nan else if 0 < a then posInf else negInf
  | fin a, negInf => if a = 0 then nan else if 0 < a then negInf else posInf
  | posInf, fin a => if a = 0 then nan else if 0 < a then posInf else negInf
  | negInf, fin a => if a = 0 then nan else if 0 < a then negInf else posInf
  | posInf, posInf => posInf
  | posInf, negInf => negInf
  | negInf, posInf => negInf
  | negInf, negInf => posInf

/-- JavaScript division.  `0 / 0 = NaN`, `a / 0 = ±∞` for `a ≠ 0` (the
rational model has no signed zero, so the divisor `0` is `+0`),
`±∞ / ±∞ = NaN`, finite division exact. -/
def div : JsNum → JsNum → JsNum
  | nan, _ => nan
  | _, nan => nan
  | fin a, fin b =>
      if b = 0 then (if a = 0 then nan else if 0 < a then posInf else negInf)
      else fin (a / b)
  | fin _, posInf => fin 0
  | fin _, negInf => fin 0
  | posInf, fin a => if 0 ≤ a then posInf else negInf
  | negInf, fin a => if 0 ≤ a then negInf else posInf
  | posInf, posInf => nan
  | posInf, negInf => nan
  | negInf, posInf => nan
  | negInf, negInf => nan

instance : Add JsNum := ⟨add⟩
instance : Sub JsNum := ⟨sub⟩
instance : Mul JsNum := ⟨mul⟩
instance : Div JsNum := ⟨div⟩
instance : Neg JsNum := ⟨neg⟩

/-- `true` exactly on finite values. -/
def isFinite : JsNum → Bool
  | fin _ => true
  | _ => false

end JsNum

open JsNum

/-- Canvas geometry of `SimplePlot`: width, height, padding and the space
reserved for the legend. -/
structure Geometry where
  width : ℚ
  height : ℚ
  padding : ℚ
  legendWidth : ℚ
deriving DecidableEq, Repr

/-- The legend-mode geometry of `SimplePlot.tsx`: `width = 800`,
`height = 320`, `padding = 40`, `legendWidth = 120`. -/
def legendGeom : Geometry := ⟨800, 320, 40, 120⟩

/-- The minimal-mode geometry of the first `SimplePlot.tsx` variant:
`width = 400`, `height = 200`, `padding = 30`, no legend reservation. -/
def minimalGeom : Geometry := ⟨400, 200, 30, 0⟩

/-- `scaleX` of `SimplePlot.tsx`:
`padding + (x - minX) / (maxX - minX) * (width - 2 * padding - legendWidth)`,
computed in JavaScript number arithmetic.  (In the minimal mode
`legendWidth = 0`, giving `width - 2 * padding`.) -/
def scaleX (g : Geometry) (minX maxX x : JsNum) : JsNum :=
  fin g.padding + (x - minX) / (maxX - minX)
    * (fin g.width - fin 2 * fin g.padding - fin g.legendWidth)

/-- `scaleY` of `SimplePlot.tsx`:
`height - padding - (y - minY) / (maxY - minY) * (height - 2 * padding)`,
computed in JavaScript number arithmetic. -/
def scaleY (g : Geometry) (minY maxY y : JsNum) : JsNum :=
  fin g.height - fin g.padding - (y - minY) / (maxY - minY)
    * (fin g.height - fin 2 * fin g.padding)

/-- One input series of `SimplePlot.tsx`: `x: number[]`, an optional
`y?: number[]`, and a `label`. -/
structure PlotData where
  x : List ℚ
  y : Option (List ℚ)
  label : String
deriving DecidableEq, Repr

/-- The fixed four-color palette of `SimplePlot.tsx`. -/
def palette : List String := ["#1976d2", "#d32f2f", "#388e3c", "#fbc02d"]

/-- The color used for the series at position `i`: `palette[i % 4]`. -/
def paletteAt (i : ℕ) : String := palette.getD (i % 4) ""

/-- `data.flatMap(d => d.x)`. -/
def allX (data : List PlotData) : List ℚ := data.flatMap (·.x)

/-- `data.flatMap(d => d.y ?? [])`. -/
def allY (data : List PlotData) : List ℚ := data.flatMap (fun d => d.y.getD [])

/-- `Math.min(...l)`: `+Infinity` on the empty list, else the minimum. -/
def jsMinList (l : List ℚ) : JsNum :=
  match l with
  | [] => posInf
  | h :: t => fin (t.foldl min h)

/-- `Math.max(...l)`: `-Infinity` on the empty list, else the maximum. -/
def jsMaxList (l : List ℚ) : JsNum :=
  match l with
  | [] => negInf
  | h :: t => fin (t.foldl max h)

/-- `minY = allY.length ? Math.min(...allY) : 0`. -/
def minYd (data : List PlotData) : JsNum :=
  match allY data with
  | [] => fin 0
  | h :: t => fin (t.foldl min h)

/-- `maxY = allY.length ? Math.max(...allY) : 1`. -/
def maxYd (data : List PlotData) : JsNum :=
  match allY data with
  | [] => fin 1
  | h :: t => fin (t.foldl max h)

/-- The vector drawing primitives emitted by `SimplePlot.tsx`.  Text content
of a value label is modelled by the numeric value itself (the source renders
`d.y![j].toFixed(2)`). -/
inductive DrawCmd where
  | line (x1 y1 x2 y2 : JsNum) (stroke : String)
  | polyline (points : List (JsNum × JsNum)) (stroke : String)
  | circle (cx cy : JsNum) (fill : String)
  | valueLabel (x y : JsNum) (fill : String) (value : JsNum)
  | axisLabel (text : String)
  | legendRect (x y : ℚ) (fill : String)
  | legendText (x y : ℚ) (label : String)
deriving DecidableEq, Repr

/-- The gridline fractions `[0.25, 0.5, 0.75, 1]` of `SimplePlot.tsx`. -/
def gridFractions : List ℚ := [1/4, 1/2, 3/4, 1]

/-- The gridline elements: for each fraction `f`, one horizontal line at
`scaleY(minY + (maxY - minY) * f)` spanning `padding .. width - padding`, and
one vertical line at `scaleX(minX + (maxX - minX) * f)` spanning
`padding .. height - padding`. -/
def gridCmds (g : Geometry) (mX MX mY MY : JsNum) : List DrawCmd :=
  gridFractions.flatMap fun f =>
    [DrawCmd.line (fin g.padding) (scaleY g mY MY (mY + (MY - mY) * fin f))
        (fin (g.width - g.padding)) (scaleY g mY MY (mY + (MY - mY) * fin f))
        "#e0e0e0",
     DrawCmd.line (scaleX g mX MX (mX + (MX - mX) * fin f)) (fin g.padding)
        (scaleX g mX MX (mX + (MX - mX) * fin f)) (fin (g.height - g.padding))
        "#e0e0e0"]

/-- The two axis lines of `SimplePlot.tsx`. -/
def axesCmds (g : Geometry) : List DrawCmd :=
  [DrawCmd.line (fin g.padding) (fin (g.height - g.padding))
      (fin (g.width - g.padding)) (fin (g.height - g.padding)) "#888",
   DrawCmd.line (fin g.padding) (fin g.padding)
      (fin g.padding) (fin (g.height - g.padding)) "#888"]

/-- `d.y![j]`: indexing past the end of the array would be `undefined` in
JavaScript, and arithmetic on `undefined` yields `NaN`. -/
def yAt (ys : List ℚ) (j : ℕ) : JsNum :=
  match ys.get? j with
  | some v => fin v
  | none => nan

/-- `Math.ceil(N / 20)` for a natural `N`. -/
def jsCeil20 (N : ℕ) : ℕ := (N + 19) / 20

/-- The downsampling condition of `SimplePlot.tsx`:
`d.x.length <= 20 || j % Math.ceil(d.x.length / 20) === 0`. -/
def labelCond (N j : ℕ) : Bool := decide (N ≤ 20) || decide (j % jsCeil20 N = 0)

/-- The elements emitted for one data point `(j, xv)` of a drawn series:
a circle marker, plus a numeric value label when the downsampling condition
holds. -/
def pointGroup (g : Geometry) (mX MX mY MY : JsNum) (i N : ℕ) (ys : List ℚ)
    (j : ℕ) (xv : ℚ) : List DrawCmd :=
  DrawCmd.circle (scaleX g mX MX (fin xv)) (scaleY g mY MY (yAt ys j))
      (paletteAt i) ::
  (if labelCond N j then
    [DrawCmd.valueLabel (scaleX g mX MX (fin xv))
        (scaleY g mY MY (yAt ys j) - fin 8) (paletteAt i) (yAt ys j)]
   else [])

/-- All per-point elements of one drawn series. -/
def pointCmds (g : Geometry) (mX MX mY MY : JsNum) (i : ℕ) (d : PlotData)
    (ys : List ℚ) : List DrawCmd :=
  d.x.enum.flatMap fun p => pointGroup g mX MX mY MY i d.x.length ys p.1 p.2

/-- The polyline points of one drawn series:
`d.x.map((x, j) => scaleX(x) + "," + scaleY(d.y![j]))`. -/
def seriesPoints (g : Geometry) (mX MX mY MY : JsNum) (d : PlotData)
    (ys : List ℚ) : List (JsNum × JsNum) :=
  d.x.enum.map fun p => (scaleX g mX MX (fin p.2), scaleY g mY MY (yAt ys p.1))

/-- All elements emitted for the series at position `i`: nothing when the
series has no `y` array (the `d.y &&` guard), else its polyline followed by
its point markers and value labels, all in the palette color at `i % 4`. -/
def seriesCmds (g : Geometry) (mX MX mY MY : JsNum) (i : ℕ) (d : PlotData) :
    List DrawCmd :=
  match d.y with
  | none => []
  | some ys =>
      DrawCmd.polyline (seriesPoints g mX MX mY MY d ys) (paletteAt i)
        :: pointCmds g mX MX mY MY i d ys

/-- The legend of `SimplePlot.tsx`: one swatch and one text per series, in
input order, colored by `palette[i % 4]`. -/
def legendCmds (g : Geometry) (data : List PlotData) : List DrawCmd :=
  data.enum.flatMap fun p =>
    [DrawCmd.legendRect (g.width - g.padding - g.legendWidth + 10)
        (g.padding + 24 * (p.1 : ℚ) - 12) (paletteAt p.1),
     DrawCmd.legendText (g.width - g.padding - g.legendWidth + 35)
        (g.padding + 24 * (p.1 : ℚ) - 4) p.2.label]

/-- The full legend-mode render of `SimplePlot.tsx`: gridlines, axes, axis
labels, the per-series drawings, and the legend. -/
def render (g : Geometry) (data : List PlotData) : List DrawCmd :=
  let mX := jsMinList (allX data)
  let MX := jsMaxList (allX data)
  let mY := minYd data
  let MY := maxYd data
  gridCmds g mX MX mY MY ++ axesCmds g
    ++ [DrawCmd.axisLabel "x", DrawCmd.axisLabel "y"]
    ++ (data.enum.flatMap fun p => seriesCmds g mX MX mY MY p.1 p.2)
    ++ legendCmds g data

/-- A generator response as consumed by `DemoForm.tsx`: an `x` array and an
optional `y` array. -/
structure GenResp where
  x : List ℚ
  y : Option (List ℚ)
deriving DecidableEq, Repr

/-- The plot-related client state of `DemoForm.tsx`: `plotData`, `plotError`
and `plotLoading`. -/
structure FetchState where
  plotData : Option (List PlotData)
  plotError : Option String
  plotLoading : Bool
deriving DecidableEq, Repr

/-- `Promise.all` over the four generator fetches: succeeds with all four
results when every fetch resolved; rejects with a failing fetch's error
otherwise (determinized here to the first failure in array order). -/
def promiseAll4 (r1 r2 r3 r4 : Except String GenResp) :
    Except String (GenResp × GenResp × GenResp × GenResp) :=
  match r1, r2, r3, r4 with
  | .error e, _, _, _ => .error e
  | _, .error e, _, _ => .error e
  | _, _, .error e, _ => .error e
  | _, _, _, .error e => .error e
  | .ok a, .ok b, .ok c, .ok d => .ok (a, b, c, d)

/-- The `setPlotData` payload built in `fetchAndSetPlotData` of
`DemoForm.tsx`: the four series in order, `linspace` without a `y` array. -/
def combinePlotData (lin ec lo mu : GenResp) : List PlotData :=
  [⟨lin.x, none, "linspace"⟩, ⟨ec.x, ec.y, "exp_cos"⟩,
   ⟨lo.x, lo.y, "logistic"⟩, ⟨mu.x, mu.y, "multi_bump"⟩]

/-- `fetchAndSetPlotData` of `DemoForm.tsx`, as a transition on the plot
state given the four settled fetch outcomes: set loading, clear the error,
join the four fetches with `Promise.all`; on success store the combined
four-series data, on failure store the error message and leave `plotData`
untouched; finally clear loading. -/
def fetchAndSetPlotData (s : FetchState) (r1 r2 r3 r4 : Except String GenResp) :
    FetchState :=
  let s1 : FetchState := ⟨s.plotData, none, true⟩
  match promiseAll4 r1 r2 r3 r4 with
  | .ok (a, b, c, d) => ⟨some (combinePlotData a b c d), s1.plotError, false⟩
  | .error e => ⟨s1.plotData, some e, false⟩

/-- The `disabled` condition of the execute button in `DemoForm.tsx`:
`plotLoading || xMin === xMax`. -/
def executeDisabled (plotLoading : Bool) (xMin xMax : ℚ) : Bool :=
  plotLoading || xMin == xMax

/-- The four POST request bodies issued by `fetchAndSetPlotData` of
`DemoForm.tsx`: one `fetchArrayAPI(endpoint, xMin, xMax)` per generator
endpoint, each carrying the current bounds unchecked. -/
def plotRequests (xMin xMax : ℚ) : List (String × ℚ × ℚ) :=
  [("/linspace", xMin, xMax), ("/exp_cos", xMin, xMax),
   ("/logistic", xMin, xMax), ("/multi_bump", xMin, xMax)]

/-- The `useEffect` with dependency `[tab]` in `DemoForm.tsx`: whenever the
plot tab (index 1) is entered it returns early on any other tab, else calls
`fetchAndSetPlotData()` unconditionally — issuing the four plot requests
with whatever bounds are current, without consulting the execute button's
`disabled` condition. -/
def tabEffectRequests (tab : ℕ) (xMin xMax : ℚ) : List (String × ℚ × ℚ) :=
  if tab == 1 then plotRequests xMin xMax else []

/-- The four generator endpoints of the backend. -/
inductive GenKind where
  | linspace
  | exp_cos
  | logistic
  | multi_bump
deriving DecidableEq, Repr

/-- The backend's structured validation error kind. -/
inductive GenError where
  | invalidDomain
deriving DecidableEq, Repr

/-- Modelled from the spec: the fixed sample count `N` shared by all
generators (`backend/main.py` is not in the reviewed tree); §8's end-to-end
scenario fixes `N = 101`. -/
def numSamples : ℕ := 101

/-- Modelled from the spec: `linspace` sampling (`backend/main.py` is not in
the reviewed tree) — `N` evenly spaced samples with `x[0] = x_min`,
`x[N-1] = x_max`, spacing `(x_max - x_min)/(N-1)`. -/
def linspaceArr (a b : ℚ) : List ℚ :=
  (List.range numSamples).map fun i => a + (b - a) * i / (numSamples - 1)

/-- Modelled from the spec: a signal generator endpoint (`backend/main.py` is
not in the reviewed tree).  Per §4.1 and §7, `x_min == x_max` and non-finite
bounds fail with `InvalidDomain` before any array is computed; otherwise `x`
is sampled by `linspace` and, for every generator but `linspace`, `y` is the
generator's fixed pointwise function of `x`, abstracted as the parameter `f`
(the claims under proof concern only the error path and the array shape). -/
def generate (f : GenKind → ℚ → ℚ) (k : GenKind) (xmin xmax : JsNum) :
    Except GenError GenResp :=
  match xmin, xmax with
  | .fin a, .fin b =>
      if a = b then .error .invalidDomain
      else
        let xs := linspaceArr a b
        .ok ⟨xs, match k with
                 | .linspace => none
                 | _ => some (xs.map (f k))⟩
  | _, _ => .error .invalidDomain

/-- Whether a drawing primitive is a numeric value label. -/
def isValueLabel : DrawCmd → Bool
  | .valueLabel _ _ _ _ => true
  | _ => false

/-- The color carried by a series or legend primitive: a polyline's stroke,
a marker's or value label's fill, a legend swatch's fill. -/
def cmdColor : DrawCmd → Option String
  | .polyline _ s => some s
  | .circle _ _ f => some f
  | .valueLabel _ _ f _ => some f
  | .legendRect _ _ f => some f
  | _ => none

/-- The fill of a legend swatch, `none` on every other primitive. -/
def legendRectFill : DrawCmd → Option String
  | .legendRect _ _ f => some f
  | _ => none

/-- The label of a legend text, `none` on every other primitive. -/
def legendTextLabel : DrawCmd → Option String
  | .legendText _ _ s => some s
  | _ => none

/-
Auxiliary lemmas.
-/

namespace JsNum

theorem fin_add (a b : ℚ) : fin a + fin b = fin (a + b) := rfl

theorem fin_sub (a b : ℚ) : fin a - fin b = fin (a - b) := by
  show add (fin a) (neg (fin b)) = fin (a - b)
  simp [add, neg, sub_eq_add_neg]

theorem fin_mul (a b : ℚ) : fin a * fin b = fin (a * b) := rfl

theorem fin_div (a b : ℚ) (hb : b ≠ 0) : fin a / fin b = fin (a / b) := by
  show div (fin a) (fin b) = fin (a / b)
  simp [div, hb]

theorem nan_mul (b : JsNum) : nan * b = nan := by cases b <;> rfl

theorem fin_add_nan (a : ℚ) : fin a + nan = nan := rfl

theorem fin_sub_self (a : ℚ) : fin a - fin a = fin 0 := by
  rw [fin_sub, sub_self]

theorem fin_div_zero_zero : fin 0 / fin 0 = nan := rfl

theorem sub_nan (a : JsNum) : a - nan = nan := by cases a <;> rfl

end JsNum

theorem scaleX_fin (g : Geometry) (m M v : ℚ) (h : m ≠ M) :
    scaleX g (fin m) (fin M) (fin v)
      = fin (g.padding + (v - m) / (M - m)
          * (g.width - 2 * g.padding - g.legendWidth)) := by
  have hd : M - m ≠ 0 := sub_ne_zero.mpr (Ne.symm h)
  simp [scaleX, fin_sub, fin_mul, fin_div _ _ hd, fin_add]

theorem scaleY_fin (g : Geometry) (m M v : ℚ) (h : m ≠ M) :
    scaleY g (fin m) (fin M) (fin v)
      = fin (g.height - g.padding - (v - m) / (M - m)
          * (g.height - 2 * g.padding)) := by
  have hd : M - m ≠ 0 := sub_ne_zero.mpr (Ne.symm h)
  simp [scaleY, fin_sub, fin_mul, fin_div _ _ hd]

/-
Claim C1.
-/

/-- C1, counterexample: the claim "for a degenerate X extent
(`minX == maxX`), `scaleX` returns `padding` for the sole input value
without producing NaN" is false on the code.  With the single data value
`5` (so `minX = maxX = 5`), `scaleX(5)` in the legend mode is `NaN`, not
the padding `40`; `scaleY` behaves the same on a degenerate Y extent. -/
theorem claim1_degenerate_counterexample :
    scaleX legendGeom (fin 5) (fin 5) (fin 5) = nan ∧
    scaleX legendGeom (fin 5) (fin 5) (fin 5) ≠ fin 40 ∧
    scaleY legendGeom (fin 5) (fin 5) (fin 5) = nan := by
  have hX : scaleX legendGeom (fin 5) (fin 5) (fin 5) = nan := by
    rw [scaleX, fin_sub_self, fin_div_zero_zero, nan_mul, fin_add_nan]
  have hY : scaleY legendGeom (fin 5) (fin 5) (fin 5) = nan := by
    rw [scaleY, fin_sub_self, fin_div_zero_zero, nan_mul, fin_sub, sub_nan]
  refine ⟨hX, ?_, hY⟩
  rw [hX]
  simp

/-- C1, amended: the code has no degenerate-range guard.  For every canvas
geometry, when the combined X extent is degenerate (`minX = maxX`), the
denominator `maxX - minX` is `0`, the quotient is `0 / 0 = NaN`, and
`scaleX` returns `NaN` (it does not throw) for the sole input value;
likewise `scaleY` when `minY = maxY`. -/
theorem claim1_degenerate_scale_nan (g : Geometry) (m : ℚ) :
    scaleX g (fin m) (fin m) (fin m) = nan ∧
    scaleY g (fin m) (fin m) (fin m) = nan := by
  constructor
  · rw [scaleX, fin_sub_self, fin_div_zero_zero, nan_mul, fin_add_nan]
  · rw [scaleY, fin_sub_self, fin_div_zero_zero, nan_mul, fin_sub, sub_nan]

/-
Claim C3.
-/

/-- C3: for every non-degenerate X extent (`minX < maxX`), in the legend
mode (`width = 800`, `padding = 40`, `legendWidth = 120`),
`scaleX(minX) = padding = 40` and
`scaleX(maxX) = width - padding - legendWidth = 640`. -/
theorem claim3_scaleX_endpoints (m M : ℚ) (h : m < M) :
    scaleX legendGeom (fin m) (fin M) (fin m) = fin 40 ∧
    scaleX legendGeom (fin m) (fin M) (fin M) = fin (800 - 40 - 120) := by
  have hne : m ≠ M := ne_of_lt h
  have hd : M - m ≠ 0 := sub_ne_zero.mpr (ne_of_gt h)
  constructor
  · rw [scaleX_fin legendGeom m M m hne]
    simp [legendGeom]
  · rw [scaleX_fin legendGeom m M M hne]
    rw [div_self hd]
    norm_num [legendGeom]

/-- C3, witness at the extent `[0, 1]`. -/
theorem claim3_witness :
    scaleX legendGeom (fin 0) (fin 1) (fin 0) = fin 40 ∧
    scaleX legendGeom (fin 0) (fin 1) (fin 1) = fin (800 - 40 - 120) :=
  claim3_scaleX_endpoints 0 1 (by norm_num)

/-
Claim C4.
-/

/-- C4: for every Y extent with `minY < maxY`, in the legend mode
(`height = 320`, `padding = 40`), `scaleY` computes
`height - padding - (v - minY) / (maxY - minY) * (height - 2 * padding)`;
in particular `scaleY(minY) = height - padding = 280`,
`scaleY(maxY) = padding = 40`, and `scaleY` is strictly decreasing in the
data value, so larger data y maps to smaller pixel y. -/
theorem claim4_scaleY_formula_and_antitone (m M : ℚ) (h : m < M) :
    (∀ v : ℚ, scaleY legendGeom (fin m) (fin M) (fin v)
        = fin (320 - 40 - (v - m) / (M - m) * (320 - 2 * 40))) ∧
    scaleY legendGeom (fin m) (fin M) (fin m) = fin 280 ∧
    scaleY legendGeom (fin m) (fin M) (fin M) = fin 40 ∧
    (∀ v1 v2 : ℚ, v1 < v2 → ∃ p1 p2 : ℚ,
      scaleY legendGeom (fin m) (fin M) (fin v1) = fin p1 ∧
      scaleY legendGeom (fin m) (fin M) (fin v2) = fin p2 ∧ p2 < p1) := by
  have hne : m ≠ M := ne_of_lt h
  have hd : M - m ≠ 0 := sub_ne_zero.mpr (ne_of_gt h)
  have hdpos : (0 : ℚ) < M - m := sub_pos.mpr h
  have hform : ∀ v : ℚ, scaleY legendGeom (fin m) (fin M) (fin v)
      = fin (320 - 40 - (v - m) / (M - m) * (320 - 2 * 40)) := by
    intro v
    rw [scaleY_fin legendGeom m M v hne]
    norm_num [legendGeom]
  refine ⟨hform, ?_, ?_, ?_⟩
  · rw [hform m]; norm_num
  · rw [hform M]
    rw [div_self hd]
    norm_num
  · intro v1 v2 hv
    refine ⟨_, _, hform v1, hform v2, ?_⟩
    have h1 : (v1 - m) / (M - m) < (v2 - m) / (M - m) :=
      div_lt_div_of_pos_right (by linarith) hdpos
    have h2 : (v1 - m) / (M - m) * (320 - 2 * 40 : ℚ)
        < (v2 - m) / (M - m) * (320 - 2 * 40) := by
      have : (0 : ℚ) < 320 - 2 * 40 := by norm_num
      exact mul_lt_mul_of_pos_right h1 this
    linarith

/-- C4, witness at the extent `[0, 1]`. -/
theorem claim4_witness :
    scaleY legendGeom (fin 0) (fin 1) (fin 0) = fin 280 ∧
    scaleY legendGeom (fin 0) (fin 1) (fin 1) = fin 40 :=
  ⟨(claim4_scaleY_formula_and_antitone 0 1 (by norm_num)).2.1,
   (claim4_scaleY_formula_and_antitone 0 1 (by norm_num)).2.2.1⟩

/-
Claim C2.
-/

/-- C2: `fetchAndSetPlotData` joins the four generator fetches with
`Promise.all`, so the plot data (from which the shared scale is computed) is
set only from all four resolved responses: if any one fetch fails, the
previously rendered `plotData` is left unchanged and the failure message is
surfaced in `plotError`; only when all four succeed is `plotData` replaced,
and then by the complete four-series list. -/
theorem claim2_join_all_or_abort (s : FetchState)
    (r1 r2 r3 r4 : Except String GenResp) :
    ((¬ ∃ a b c d, r1 = .ok a ∧ r2 = .ok b ∧ r3 = .ok c ∧ r4 = .ok d) →
      (fetchAndSetPlotData s r1 r2 r3 r4).plotData = s.plotData ∧
      ∃ e, (r1 = .error e ∨ r2 = .error e ∨ r3 = .error e ∨ r4 = .error e) ∧
        (fetchAndSetPlotData s r1 r2 r3 r4).plotError = some e) ∧
    (∀ a b c d, r1 = .ok a → r2 = .ok b → r3 = .ok c → r4 = .ok d →
      (fetchAndSetPlotData s r1 r2 r3 r4).plotData
        = some (combinePlotData a b c d) ∧
      (fetchAndSetPlotData s r1 r2 r3 r4).plotError = none) := by
  constructor
  · intro hne
    cases r1 <;> cases r2 <;> cases r3 <;> cases r4 <;>
      simp_all [fetchAndSetPlotData, promiseAll4]
  · intro a b c d h1 h2 h3 h4
    subst h1; subst h2; subst h3; subst h4
    simp [fetchAndSetPlotData, promiseAll4]

/-- C2, witness: with a failing first fetch, the prior plot data survives
and the message is surfaced. -/
theorem claim2_witness :
    (fetchAndSetPlotData ⟨some [⟨[0], none, "prior"⟩], none, false⟩
        (.error "API error: 500") (.ok ⟨[0], none⟩) (.ok ⟨[0], some [1]⟩)
        (.ok ⟨[0], some [2]⟩)).plotData = some [⟨[0], none, "prior"⟩] :=
  ((claim2_join_all_or_abort ⟨some [⟨[0], none, "prior"⟩], none, false⟩
      (.error "API error: 500") (.ok ⟨[0], none⟩) (.ok ⟨[0], some [1]⟩)
      (.ok ⟨[0], some [2]⟩)).1 (by simp)).1

/-
Claim C8.
-/

/-- C8, counterexample: the claim "on the client, the plot request cannot
be issued while xMin equals xMax" is false on the code.  With
`xMin = xMax = 2` the execute button is indeed disabled, yet the `useEffect`
on the tab state issues all four plot requests with those equal bounds as
soon as the plot tab (index 1) is entered, `"/linspace"` with bounds
`(2, 2)` among them. -/
theorem claim8_counterexample :
    executeDisabled false 2 2 = true ∧
    tabEffectRequests 1 2 2 = plotRequests 2 2 ∧
    ("/linspace", (2 : ℚ), (2 : ℚ)) ∈ tabEffectRequests 1 2 2 := by
  refine ⟨by simp [executeDisabled], rfl, ?_⟩
  simp [tabEffectRequests, plotRequests]

/-- C8, amended: every generator fails with `InvalidDomain` — returning no
array — when `x_min = x_max` or when a bound is non-finite (the backend
generators are modelled from the spec, `backend/main.py` being absent from
the reviewed tree); on the client the execute button is disabled whenever
`xMin === xMax`, but the `useEffect` on the tab state issues the four plot
requests unconditionally, with whatever bounds are current, every time the
plot tab is entered — so the request can still be issued with
`xMin = xMax`. -/
theorem claim8_invalid_domain (f : GenKind → ℚ → ℚ) (k : GenKind) :
    (∀ q : ℚ, generate f k (fin q) (fin q) = .error .invalidDomain) ∧
    (∀ a b : JsNum, (isFinite a = false ∨ isFinite b = false) →
      generate f k a b = .error .invalidDomain) ∧
    (∀ (loading : Bool) (q : ℚ), executeDisabled loading q q = true) ∧
    (∀ xMin xMax : ℚ, tabEffectRequests 1 xMin xMax
      = plotRequests xMin xMax) := by
  refine ⟨?_, ?_, ?_, ?_⟩
  · intro q
    simp [generate]
  · intro a b h
    cases a <;> cases b <;> simp_all [generate, isFinite]
  · intro loading q
    simp [executeDisabled]
  · intro xMin xMax
    rfl

/-- C8, witness: `linspace` on the degenerate domain `[3, 3]`, `exp_cos`
with a NaN bound, the disabled execute button at `xMin = xMax = 2`, and the
tab effect issuing the requests at those same bounds. -/
theorem claim8_witness :
    generate (fun _ _ => 0) GenKind.linspace (fin 3) (fin 3)
      = .error .invalidDomain ∧
    generate (fun _ _ => 0) GenKind.exp_cos nan (fin 1)
      = .error .invalidDomain ∧
    executeDisabled false 2 2 = true ∧
    tabEffectRequests 1 2 2 = plotRequests 2 2 :=
  ⟨(claim8_invalid_domain (fun _ _ => 0) GenKind.linspace).1 3,
   (claim8_invalid_domain (fun _ _ => 0) GenKind.exp_cos).2.1 nan (fin 1)
     (Or.inl rfl),
   (claim8_invalid_domain (fun _ _ => 0) GenKind.linspace).2.2.1 false 2,
   (claim8_invalid_domain (fun _ _ => 0) GenKind.linspace).2.2.2 2 2⟩

/-
Claim C9.
-/

/-- C9: the background gridlines are exactly, and in this order, one
horizontal line at `scaleY(minY + (maxY - minY) * f)` and one vertical line
at `scaleX(minX + (maxX - minX) * f)` for each fraction
`f ∈ {0.25, 0.5, 0.75, 1}` — and none at any other fraction. -/
theorem claim9_gridlines (g : Geometry) (mX MX mY MY : JsNum) :
    gridCmds g mX MX mY MY =
      [DrawCmd.line (fin g.padding)
          (scaleY g mY MY (mY + (MY - mY) * fin (1/4)))
          (fin (g.width - g.padding))
          (scaleY g mY MY (mY + (MY - mY) * fin (1/4))) "#e0e0e0",
       DrawCmd.line (scaleX g mX MX (mX + (MX - mX) * fin (1/4)))
          (fin g.padding) (scaleX g mX MX (mX + (MX - mX) * fin (1/4)))
          (fin (g.height - g.padding)) "#e0e0e0",
       DrawCmd.line (fin g.padding)
          (scaleY g mY MY (mY + (MY - mY) * fin (1/2)))
          (fin (g.width - g.padding))
          (scaleY g mY MY (mY + (MY - mY) * fin (1/2))) "#e0e0e0",
       DrawCmd.line (scaleX g mX MX (mX + (MX - mX) * fin (1/2)))
          (fin g.padding) (scaleX g mX MX (mX + (MX - mX) * fin (1/2)))
          (fin (g.height - g.padding)) "#e0e0e0",
       DrawCmd.line (fin g.padding)
          (scaleY g mY MY (mY + (MY - mY) * fin (3/4)))
          (fin (g.width - g.padding))
          (scaleY g mY MY (mY + (MY - mY) * fin (3/4))) "#e0e0e0",
       DrawCmd.line (scaleX g mX MX (mX + (MX - mX) * fin (3/4)))
          (fin g.padding) (scaleX g mX MX (mX + (MX - mX) * fin (3/4)))
          (fin (g.height - g.padding)) "#e0e0e0",
       DrawCmd.line (fin g.padding)
          (scaleY g mY MY (mY + (MY - mY) * fin 1))
          (fin (g.width - g.padding))
          (scaleY g mY MY (mY + (MY - mY) * fin 1)) "#e0e0e0",
       DrawCmd.line (scaleX g mX MX (mX + (MX - mX) * fin 1))
          (fin g.padding) (scaleX g mX MX (mX + (MX - mX) * fin 1))
          (fin (g.height - g.padding)) "#e0e0e0"] := by
  rfl

/-
Claim C10.
-/

/-- C10: when no series carries a `y` array (the flattened y list is empty),
the Y extent defaults to `minY = 0`, `maxY = 1`, and with that extent
`scaleY` maps `0` to `height - padding` and `1` to `padding`, with a
denominator of `1` (no division by zero). -/
theorem claim10_empty_y_defaults (g : Geometry) (data : List PlotData)
    (h : allY data = []) :
    minYd data = fin 0 ∧ maxYd data = fin 1 ∧
    scaleY g (fin 0) (fin 1) (fin 0) = fin (g.height - g.padding) ∧
    scaleY g (fin 0) (fin 1) (fin 1) = fin g.padding := by
  refine ⟨?_, ?_, ?_, ?_⟩
  · simp [minYd, h]
  · simp [maxYd, h]
  · rw [scaleY_fin g 0 1 0 (by norm_num)]
    norm_num
  · rw [scaleY_fin g 0 1 1 (by norm_num)]
    norm_num
    ring

/-- C10, witness: a single y-less `linspace` series. -/
theorem claim10_witness :
    minYd [⟨[1, 2], none, "linspace"⟩] = fin 0 ∧
    maxYd [⟨[1, 2], none, "linspace"⟩] = fin 1 :=
  ⟨(claim10_empty_y_defaults legendGeom [⟨[1, 2], none, "linspace"⟩] rfl).1,
   (claim10_empty_y_defaults legendGeom [⟨[1, 2], none, "linspace"⟩] rfl).2.1⟩

/-
Claim C5.
-/

theorem foldl_min_le_init (t : List ℚ) : ∀ b : ℚ, t.foldl min b ≤ b := by
  induction t with
  | nil => intro b; simp
  | cons a t ih => intro b; exact le_trans (ih (min b a)) (min_le_left b a)

theorem foldl_min_le_mem (t : List ℚ) :
    ∀ (b v : ℚ), v ∈ t → t.foldl min b ≤ v := by
  induction t with
  | nil => intro b v hv; cases hv
  | cons a t ih =>
    intro b v hv
    rcases List.mem_cons.mp hv with rfl | hv
    · exact le_trans (foldl_min_le_init t (min b v)) (min_le_right b v)
    · exact ih (min b a) v hv

theorem init_le_foldl_max (t : List ℚ) : ∀ b : ℚ, b ≤ t.foldl max b := by
  induction t with
  | nil => intro b; simp
  | cons a t ih => intro b; exact le_trans (le_max_left b a) (ih (max b a))

theorem mem_le_foldl_max (t : List ℚ) :
    ∀ (b v : ℚ), v ∈ t → v ≤ t.foldl max b := by
  induction t with
  | nil => intro b v hv; cases hv
  | cons a t ih =>
    intro b v hv
    rcases List.mem_cons.mp hv with rfl | hv
    · exact le_trans (le_max_right b v) (init_le_foldl_max t (max b v))
    · exact ih (max b a) v hv

theorem jsMinList_le (l : List ℚ) (v : ℚ) (hv : v ∈ l) :
    ∃ m : ℚ, jsMinList l = fin m ∧ m ≤ v := by
  cases l with
  | nil => cases hv
  | cons h t =>
    refine ⟨t.foldl min h, rfl, ?_⟩
    rcases List.mem_cons.mp hv with rfl | hv
    · exact foldl_min_le_init t v
    · exact foldl_min_le_mem t h v hv

theorem le_jsMaxList (l : List ℚ) (v : ℚ) (hv : v ∈ l) :
    ∃ M : ℚ, jsMaxList l = fin M ∧ v ≤ M := by
  cases l with
  | nil => cases hv
  | cons h t =>
    refine ⟨t.foldl max h, rfl, ?_⟩
    rcases List.mem_cons.mp hv with rfl | hv
    · exact init_le_foldl_max t v
    · exact mem_le_foldl_max t h v hv

/-- C5: a series without a `y` array produces no drawing elements at all —
no polyline, no markers, no labels — and the renderer does not error on it
(`seriesCmds` is total), while all of its `x` values still enter the
flattened `allX` list, so they bound the shared `minX`/`maxX` extent from
which `scaleX` is derived. -/
theorem claim5_no_y_series (g : Geometry) (mX MX mY MY : JsNum) (i : ℕ)
    (data : List PlotData) (d : PlotData) (v : ℚ)
    (hd : d ∈ data) (hy : d.y = none) (hv : v ∈ d.x) :
    seriesCmds g mX MX mY MY i d = [] ∧
    d.x ⊆ allX data ∧
    (∃ m : ℚ, jsMinList (allX data) = fin m ∧ m ≤ v) ∧
    (∃ M : ℚ, jsMaxList (allX data) = fin M ∧ v ≤ M) := by
  have hsub : d.x ⊆ allX data := by
    intro w hw
    exact List.mem_flatMap.mpr ⟨d, hd, hw⟩
  have hvall : v ∈ allX data := hsub hv
  refine ⟨?_, hsub, jsMinList_le _ _ hvall, le_jsMaxList _ _ hvall⟩
  obtain ⟨xs, yo, lab⟩ := d
  simp only [PlotData.y] at hy
  subst hy
  rfl

/-- C5, witness: a y-less `linspace` series next to a drawn series. -/
theorem claim5_witness :
    seriesCmds legendGeom (fin 0) (fin 2) (fin 0) (fin 5) 0
      ⟨[0, 2], none, "linspace"⟩ = [] ∧
    ([0, 2] : List ℚ)
      ⊆ allX [⟨[0, 2], none, "linspace"⟩, ⟨[1], some [5], "s"⟩] := by
  have h := claim5_no_y_series legendGeom (fin 0) (fin 2) (fin 0) (fin 5) 0
    [⟨[0, 2], none, "linspace"⟩, ⟨[1], some [5], "s"⟩]
    ⟨[0, 2], none, "linspace"⟩ 0 (by simp) rfl (by simp)
  exact ⟨h.1, h.2.1⟩

/-
Claim C6.
-/

theorem countP_flatMap_eq_sum {α β : Type} (p : β → Bool) (f : α → List β)
    (l : List α) :
    (l.flatMap f).countP p = (l.map fun a => (f a).countP p).sum := by
  induction l with
  | nil => rfl
  | cons a t ih => simp [List.flatMap_cons, List.countP_append, ih]

theorem sum_map_ite_eq_countP (p : ℕ → Bool) (l : List ℕ) :
    (l.map fun a => if p a then (1 : ℕ) else 0).sum = l.countP p := by
  induction l with
  | nil => rfl
  | cons a t ih => simp [List.countP_cons, ih, Nat.add_comm]

theorem labelCond_count_le (N : ℕ) :
    ((List.range N).filter (fun j => labelCond N j)).length ≤ 20 := by
  by_cases hN : N ≤ 20
  · calc ((List.range N).filter (fun j => labelCond N j)).length
        ≤ (List.range N).length := List.length_filter_le _ _
      _ = N := List.length_range N
      _ ≤ 20 := hN
  · push_neg at hN
    have hnle : ¬ N ≤ 20 := by omega
    have hcpos : 0 < jsCeil20 N := by
      simp only [jsCeil20]
      omega
    have hfeq : (List.range N).filter (fun j => labelCond N j)
        = (List.range N).filter (fun j => decide (j % jsCeil20 N = 0)) := by
      apply List.filter_congr
      intro j _
      simp [labelCond, hnle]
    rw [hfeq]
    have hnd : ((List.range N).filter
        (fun j => decide (j % jsCeil20 N = 0))).Nodup :=
      (List.nodup_range N).filter _
    have hNle : N ≤ 20 * jsCeil20 N := by
      have h1 := Nat.div_add_mod (N + 19) 20
      have h2 : (N + 19) % 20 < 20 := Nat.mod_lt _ (by norm_num)
      simp only [jsCeil20]
      omega
    have hmaps : ∀ j ∈ ((List.range N).filter
        (fun j => decide (j % jsCeil20 N = 0))).toFinset,
        j / jsCeil20 N ∈ Finset.range 20 := by
      intro j hj
      rw [List.mem_toFinset, List.mem_filter] at hj
      have hjN : j < N := List.mem_range.mp hj.1
      rw [Finset.mem_range, Nat.div_lt_iff_lt_mul hcpos]
      omega
    have hinj : Set.InjOn (fun j => j / jsCeil20 N)
        ((List.range N).filter
          (fun j => decide (j % jsCeil20 N = 0))).toFinset := by
      intro j1 hj1 j2 hj2 heq
      rw [Finset.mem_coe, List.mem_toFinset, List.mem_filter] at hj1 hj2
      have d1 : jsCeil20 N ∣ j1 :=
        Nat.dvd_of_mod_eq_zero (by simpa using hj1.2)
      have d2 : jsCeil20 N ∣ j2 :=
        Nat.dvd_of_mod_eq_zero (by simpa using hj2.2)
      have e1 : j1 / jsCeil20 N * jsCeil20 N = j1 := Nat.div_mul_cancel d1
      have e2 : j2 / jsCeil20 N * jsCeil20 N = j2 := Nat.div_mul_cancel d2
      simp only at heq
      rw [← e1, ← e2, heq]
    calc ((List.range N).filter (fun j => decide (j % jsCeil20 N = 0))).length
        = ((List.range N).filter
            (fun j => decide (j % jsCeil20 N = 0))).toFinset.card :=
          (List.toFinset_card_of_nodup hnd).symm
      _ ≤ (Finset.range 20).card :=
          Finset.card_le_card_of_injOn (fun j => j / jsCeil20 N) hmaps hinj
      _ = 20 := Finset.card_range 20

theorem pointGroup_label_count (g : Geometry) (mX MX mY MY : JsNum)
    (i N : ℕ) (ys : List ℚ) (j : ℕ) (xv : ℚ) :
    (pointGroup g mX MX mY MY i N ys j xv).countP isValueLabel
      = if labelCond N j then 1 else 0 := by
  by_cases h : labelCond N j <;>
    simp [pointGroup, h, List.countP_cons, isValueLabel]

/-- C6: for a drawn series with `N = len(x)` points, a numeric value label
is emitted in the point group at index `j` exactly when `N ≤ 20` or
`j mod ceil(N/20) = 0`, and in total the series carries at most 20 value
labels. -/
theorem claim6_value_label_downsampling (g : Geometry) (mX MX mY MY : JsNum)
    (i : ℕ) (d : PlotData) (ys : List ℚ) (hy : d.y = some ys) :
    (∀ (j : ℕ) (xv : ℚ),
      (pointGroup g mX MX mY MY i d.x.length ys j xv).countP isValueLabel
        = if d.x.length ≤ 20 ∨ j % jsCeil20 d.x.length = 0 then 1 else 0) ∧
    (seriesCmds g mX MX mY MY i d).countP isValueLabel ≤ 20 := by
  constructor
  · intro j xv
    rw [pointGroup_label_count]
    by_cases h : d.x.length ≤ 20 ∨ j % jsCeil20 d.x.length = 0
    · rw [if_pos h, if_pos (by simpa [labelCond] using h)]
    · rw [if_neg h, if_neg (by simpa [labelCond] using h)]
  · obtain ⟨xs, yo, lab⟩ := d
    simp only [PlotData.y] at hy
    subst hy
    show (DrawCmd.polyline _ _ ::
        pointCmds g mX MX mY MY i ⟨xs, some ys, lab⟩ ys).countP isValueLabel
      ≤ 20
    rw [List.countP_cons]
    simp only [isValueLabel, if_false, Nat.add_zero, pointCmds]
    rw [countP_flatMap_eq_sum]
    have hmap : (xs.enum.map fun p =>
          (pointGroup g mX MX mY MY i
            (PlotData.x ⟨xs, some ys, lab⟩).length ys p.1 p.2).countP
              isValueLabel)
        = xs.enum.map
            ((fun j => if labelCond xs.length j then (1 : ℕ) else 0)
              ∘ Prod.fst) := by
      apply List.map_congr_left
      intro p _
      exact pointGroup_label_count g mX MX mY MY i xs.length ys p.1 p.2
    rw [hmap, ← List.map_map, List.enum_map_fst, sum_map_ite_eq_countP,
      List.countP_eq_length_filter]
    exact labelCond_count_le xs.length

/-- C6, witness: a 3-point drawn series, every point labeled (`N ≤ 20`). -/
theorem claim6_witness :
    (pointGroup legendGeom (fin 0) (fin 2) (fin 0) (fin 5) 1
        ([0, 1, 2] : List ℚ).length [5, 6, 7] 1 1).countP isValueLabel
      = 1 :=
  (((claim6_value_label_downsampling legendGeom (fin 0) (fin 2) (fin 0)
      (fin 5) 1 ⟨[0, 1, 2], some [5, 6, 7], "s"⟩ [5, 6, 7] rfl).1 1 1).trans
    (by norm_num))

/-
Claim C7.
-/

theorem filterMap_flatMap_eq {α β γ : Type} (f : α → List β) (h : β → Option γ)
    (l : List α) :
    (l.flatMap f).filterMap h = l.flatMap fun a => (f a).filterMap h := by
  induction l with
  | nil => rfl
  | cons a t ih => simp [List.flatMap_cons, List.filterMap_append, ih]

theorem flatMap_singleton_eq_map {α β : Type} (f : α → β) (l : List α) :
    (l.flatMap fun a => [f a]) = l.map f := by
  induction l with
  | nil => rfl
  | cons a t ih => simp [List.flatMap_cons, ih]

/-- C7: every element drawn for the series at position `i` — its polyline,
its point markers, its value labels — carries the color `palette[i % 4]`;
the legend emits one swatch per series whose fills are, in input order,
`palette[0 % 4], palette[1 % 4], ...`, and one text per series whose labels
are the series labels in input order. -/
theorem claim7_palette_consistency (g : Geometry) (mX MX mY MY : JsNum)
    (data : List PlotData) :
    (∀ (i : ℕ) (d : PlotData) (c : DrawCmd),
        c ∈ seriesCmds g mX MX mY MY i d → cmdColor c = some (paletteAt i)) ∧
    (legendCmds g data).filterMap legendRectFill
      = (List.range data.length).map paletteAt ∧
    (legendCmds g data).filterMap legendTextLabel = data.map (·.label) := by
  refine ⟨?_, ?_, ?_⟩
  · intro i d c hc
    obtain ⟨xs, yo, lab⟩ := d
    cases yo with
    | none => cases hc
    | some ys =>
      rcases List.mem_cons.mp hc with rfl | hc2
      · rfl
      · simp only [pointCmds] at hc2
        obtain ⟨p, _, hcp⟩ := List.mem_flatMap.mp hc2
        rcases List.mem_cons.mp hcp with rfl | hcp2
        · rfl
        · by_cases hcond : labelCond ((⟨xs, some ys, lab⟩ : PlotData).x).length p.1
          · rw [if_pos hcond] at hcp2
            rw [List.mem_singleton.mp hcp2]
            rfl
          · rw [if_neg hcond] at hcp2
            cases hcp2
  · rw [legendCmds, filterMap_flatMap_eq]
    have hblock : (data.enum.flatMap fun p =>
          ([DrawCmd.legendRect (g.width - g.padding - g.legendWidth + 10)
              (g.padding + 24 * (p.1 : ℚ) - 12) (paletteAt p.1),
            DrawCmd.legendText (g.width - g.padding - g.legendWidth + 35)
              (g.padding + 24 * (p.1 : ℚ) - 4) p.2.label].filterMap
                legendRectFill))
        = data.enum.flatMap fun p => [paletteAt p.1] := by
      apply List.flatMap_congr
      intro p _
      rfl
    rw [hblock, flatMap_singleton_eq_map]
    have : (data.enum.map fun p => paletteAt p.1)
        = data.enum.map (paletteAt ∘ Prod.fst) := rfl
    rw [this, ← List.map_map, List.enum_map_fst]
  · rw [legendCmds, filterMap_flatMap_eq]
    have hblock : (data.enum.flatMap fun p =>
          ([DrawCmd.legendRect (g.width - g.padding - g.legendWidth + 10)
              (g.padding + 24 * (p.1 : ℚ) - 12) (paletteAt p.1),
            DrawCmd.legendText (g.width - g.padding - g.legendWidth + 35)
              (g.padding + 24 * (p.1 : ℚ) - 4) p.2.label].filterMap
                legendTextLabel))
        = data.enum.flatMap fun p => [p.2.label] := by
      apply List.flatMap_congr
      intro p _
      rfl
    rw [hblock, flatMap_singleton_eq_map]
    have : (data.enum.map fun p => p.2.label)
        = data.enum.map ((·.label) ∘ Prod.snd) := rfl
    rw [this, ← List.map_map, List.enum_map_snd]

/-- C7, witness: the polyline of the series at position 1 carries
`palette[1 % 4]`. -/
theorem claim7_witness :
    cmdColor (DrawCmd.polyline
        (seriesPoints legendGeom (fin 0) (fin 1) (fin 0) (fin 1)
          ⟨[0], some [0], "s"⟩ [0]) (paletteAt 1))
      = some (paletteAt 1) :=
  (claim7_palette_consistency legendGeom (fin 0) (fin 1) (fin 0) (fin 1)
      []).1 1 ⟨[0], some [0], "s"⟩ _ (List.mem_cons_self _ _)
